import Mathlib

/-!
Verification development for the bot supervisor implemented in `src/index.js`.

The JavaScript source is shallowly embedded: the global mutable state
(`activeBots`, `logs`, and the content of `bots.json`) becomes an explicit
state record `St`, every handler becomes a pure function from state to state,
and the side effects a handler performs (log calls, issuing a disconnect,
setting the `manuallyStopped` flag, creating a session, scheduling a
reconnect timer) are returned as an explicit action trace, in the order the
source performs them.  External nondeterminism — the liveness-probe outcome,
the values produced by `Date.now() + Math.random()`, the environment
variables, wall-clock timestamps — enters as explicit parameters.
-/

namespace MCBot

/-- JSON values, modelling what `JSON.parse` can return when reading
`bots.json`.  Numbers are modelled as integers (the stored documents only
ever hold strings and small integers). -/
inductive Json where
  | null
  | bool (b : Bool)
  | num (n : Int)
  | str (s : String)
  | arr (elems : List Json)
  | obj (fields : List (String × Json))

/-- Whether a JSON value is an array. -/
def Json.isArr : Json → Bool
  | .arr _ => true
  | _ => false

/-- The observable condition of the `bots.json` file at the moment
`loadBots` runs: absent, present but unreadable (`readFileSync` throws),
present and empty (`data || '[]'` falls back to `'[]'`), present with
content `JSON.parse` rejects, or present with content parsing to `j`. -/
inductive BotsFile where
  | absent
  | readError
  | emptyContent
  | parseError
  | parsed (j : Json)

/-- A persisted bot configuration, as built by the `/add-bot` handler
(src/index.js lines 160-164).  `host` and `username` stay `undefined`
(modelled `none`) when the request and the environment provide nothing;
`port` is modelled by its decimal string.  The source field `type` holds
the auth mode. -/
structure BotConfig where
  host : Option String
  port : String
  username : Option String
  password : String
  type : String
  deriving DecidableEq

/-- A runtime bot record, one element of the global `activeBots` array
(src/index.js line 166).  The source field `instance` (the mineflayer
handle) is modelled by `inst : Option Unit` — the claims only observe
whether a session handle is present. -/
structure BotRecord where
  config : BotConfig
  inst : Option Unit
  index : Nat
  manuallyStopped : Bool
  deriving DecidableEq

/-- The environment variables the `/add-bot` handler consults. -/
structure Env where
  SERVER_IP : Option String
  SERVER_PORT : Option String
  deriving DecidableEq

/-- The JSON body of a mutation-endpoint response; every handler in the
source answers `res.json({ success: true })`. -/
structure Response where
  success : Bool
  deriving DecidableEq

/-- Fields of an `/add-bot` request body; `none` models an absent
(`undefined`) field. -/
structure AddReq where
  host : Option String
  port : Option String
  username : Option String
  password : Option String
  type : Option String
  deriving DecidableEq

/-- The supervisor's mutable state: the global `activeBots` array, the
configuration list currently stored in `bots.json` (as written by
`saveAllBots`), and the global `logs` array. -/
structure St where
  activeBots : List BotRecord
  botsFile : List BotConfig
  logs : List String
  deriving DecidableEq

/-- JavaScript string interpolation of a possibly-`undefined` value. -/
def optStr : Option String → String
  | none => "undefined"
  | some s => s

/-- The host of a configuration as it appears in template strings. -/
def hostStr (c : BotConfig) : String := optStr c.host

/-- The username of a configuration as it appears in template strings. -/
def usernameStr (c : BotConfig) : String := optStr c.username

/-- JavaScript `x || d` for a string-valued `x` that may be `undefined`:
`undefined` and the empty string are falsy. -/
def jsOr (v : Option String) (d : String) : String :=
  match v with
  | none => d
  | some s => if s = "" then d else s

/-- JavaScript `x || d` where the default may itself be `undefined`. -/
def jsOrOpt (v : Option String) (d : Option String) : Option String :=
  match v with
  | none => d
  | some s => if s = "" then d else some s

/-- The log entry format of `addLog` (src/index.js line 18): the wall-clock
time string is prepended in brackets. -/
def logEntry (now msg : String) : String := "[" ++ now ++ "] " ++ msg

/-- `addLog` (src/index.js lines 17-22): push the timestamped entry, then
`if (logs.length > 50) logs.shift()`. -/
def addLog (now msg : String) (logs : List String) : List String :=
  let pushed := logs ++ [logEntry now msg]
  if pushed.length > 50 then pushed.drop 1 else pushed

/-- The buffer obtained by appending the messages `msgs` (oldest first)
to an initially empty log, all stamped with time `now`. -/
def logsAfter (now : String) (msgs : List String) : List String :=
  msgs.foldl (fun acc m => addLog now m acc) []

/-- The body of the `try` block in `loadBots` (src/index.js lines 51-53):
`JSON.parse(data || '[]')` on the file content, which can throw. -/
def readAndParse : BotsFile → Except String Json
  | .absent => .error "unreachable: guarded by existsSync"
  | .readError => .error "readFileSync failed"
  | .emptyContent => .ok (Json.arr [])
  | .parseError => .error "JSON.parse failed"
  | .parsed j => .ok j

/-- `loadBots` (src/index.js lines 49-58): returns `[]` when the file is
absent; otherwise runs the `try` block and, in the `catch`, logs
`"Error reading bots.json"` and returns `[]`.  The result is the parsed
JSON value together with the updated log buffer; the `catch` makes the
function total — no error propagates to the caller. -/
def loadBots (now : String) (f : BotsFile) (logs : List String) :
    Json × List String :=
  match f with
  | .absent => (Json.arr [], logs)
  | f =>
    match readAndParse f with
    | .ok j => (j, logs)
    | .error _ => (Json.arr [], addLog now "Error reading bots.json" logs)

/-- `saveAllBots` (src/index.js lines 60-63): overwrite `bots.json` with
`activeBots.map(b => b.config)`. -/
def saveAllBots (s : St) : St :=
  { s with botsFile := s.activeBots.map (fun b => b.config) }

/-- Mutation of the first array element satisfying `p`, as performed by
the source when it writes through the alias returned by
`activeBots.find(...)`. -/
def updateFirst (p : BotRecord → Bool) (f : BotRecord → BotRecord) :
    List BotRecord → List BotRecord
  | [] => []
  | b :: bs => if p b then f b :: bs else b :: updateFirst p f bs

/-- One observable side effect of a handler, in source order. -/
inductive Action where
  | log (msg : String)
  | setManuallyStopped (index : Nat) (value : Bool)
  | quitSession (index : Nat)
  | clearHandle (index : Nat)
  | createSession (index : Nat)
  | scheduleStart (index : Nat)
  deriving DecidableEq

/-- Whether an action writes the `manuallyStopped` flag. -/
def Action.isSetMS : Action → Bool
  | .setManuallyStopped _ _ => true
  | _ => false

/-- Whether an action issues the collaborator's disconnect command
(`instance.quit()`). -/
def Action.isQuit : Action → Bool
  | .quitSession _ => true
  | _ => false

/-- Whether an action schedules a delayed `startBot` retry
(`setTimeout(() => startBot(index), 10000)`). -/
def Action.isScheduleStart : Action → Bool
  | .scheduleStart _ => true
  | _ => false

/-- Whether an action creates a mineflayer session
(`mineflayer.createBot(...)`). -/
def Action.isCreateSession : Action → Bool
  | .createSession _ => true
  | _ => false

/-- Whether a string is an abort message: the source's abort log line is
the only one starting with `"ABORT"`. -/
def isAbortStr (m : String) : Bool :=
  match m.data with
  | 'A' :: 'B' :: 'O' :: 'R' :: 'T' :: _ => true
  | _ => false

/-- Whether an action logs an abort message. -/
def Action.isAbortLog : Action → Bool
  | .log m => isAbortStr m
  | _ => false

/-- The probe announcement of `startBot` (src/index.js line 113). -/
def pingMsg (c : BotConfig) : String :=
  "Pinging " ++ (hostStr c ++ (":" ++ (c.port ++ "...")))

/-- The abort message of `startBot` (src/index.js line 118). -/
def abortMsg (c : BotConfig) : String :=
  "ABORT: Server " ++ (hostStr c ++ " is unreachable. Check Aternos Status.")

/-- The handshake announcement of `createBotInstance`
(src/index.js line 67). -/
def handshakeMsg (c : BotConfig) : String :=
  "Initiating handshake for " ++ usernameStr c ++ "..."

/-- The offline message of the `end` handler (src/index.js line 96). -/
def offlineMsg (c : BotConfig) (reason : String) : String :=
  "OFFLINE: " ++ usernameStr c ++ " (" ++ reason ++ ")"

/-- The reconnect announcement of the `end` handler
(src/index.js line 101). -/
def reconnectMsg (c : BotConfig) : String :=
  "Auto-reconnecting " ++ usernameStr c ++ " in 10s..."

/-- `startBot` (src/index.js lines 110-125).  `alive` is the outcome of the
`checkServerAlive` probe, `now` the wall-clock time string used for the log
entries of this call.  Returns the new state and the action trace in source
order.  When the record is absent or already holds a session handle the
body is skipped entirely. -/
def startBot (alive : Bool) (now : String) (s : St) (index : Nat) :
    St × List Action :=
  match s.activeBots.find? (fun b => b.index == index) with
  | none => (s, [])
  | some state =>
    if state.inst.isSome then (s, [])
    else
      let s1 := { s with logs := addLog now (pingMsg state.config) s.logs }
      if alive = false then
        ({ s1 with logs := addLog now (abortMsg state.config) s1.logs },
         [.log (pingMsg state.config), .log (abortMsg state.config)])
      else
        let s2 := { s1 with logs := addLog now (handshakeMsg state.config) s1.logs }
        let connected := fun (b : BotRecord) =>
          { b with inst := some (), manuallyStopped := false }
        let bots3 := updateFirst (fun b => b.index == index) connected s2.activeBots
        let s3 := { s2 with activeBots := bots3 }
        (s3, [.log (pingMsg state.config), .log (handshakeMsg state.config),
              .createSession index, .setManuallyStopped index false])

/-- `stopBot` (src/index.js lines 127-134): when the record exists and holds
a session handle, set `manuallyStopped = true`, then call
`instance.quit()`, then clear the handle — in exactly that order. -/
def stopBot (s : St) (index : Nat) : St × List Action :=
  match s.activeBots.find? (fun b => b.index == index) with
  | none => (s, [])
  | some state =>
    if state.inst.isSome then
      let stoppedRec := fun (b : BotRecord) =>
        { b with manuallyStopped := true, inst := none }
      let bots := updateFirst (fun b => b.index == index) stoppedRec s.activeBots
      ({ s with activeBots := bots },
       [.setManuallyStopped index true, .quitSession index, .clearHandle index])
    else (s, [])

/-- The `bot.on('end')` handler registered by `createBotInstance`
(src/index.js lines 95-105).  `autoReconnect` models
`process.env.AUTO_RECONNECT === 'true'`; `cfg` is the `botConfig` captured
by the handler's closure, `index` the captured record id. -/
def onEnd (autoReconnect : Bool) (now reason : String) (cfg : BotConfig)
    (s : St) (index : Nat) : St × List Action :=
  let s1 := { s with logs := addLog now (offlineMsg cfg reason) s.logs }
  match s1.activeBots.find? (fun b => b.index == index) with
  | none => (s1, [.log (offlineMsg cfg reason)])
  | some state =>
    let cleared := fun (b : BotRecord) => { b with inst := none }
    let bots := updateFirst (fun b => b.index == index) cleared s1.activeBots
    let s2 := { s1 with activeBots := bots }
    if !state.manuallyStopped && autoReconnect then
      ({ s2 with logs := addLog now (reconnectMsg cfg) s2.logs },
       [.log (offlineMsg cfg reason), .log (reconnectMsg cfg),
        .scheduleStart index])
    else (s2, [.log (offlineMsg cfg reason)])

/-- The configuration object built by the `/add-bot` handler
(src/index.js lines 160-164). -/
def mkConfig (env : Env) (r : AddReq) : BotConfig :=
  { host := jsOrOpt r.host env.SERVER_IP
    port := jsOr r.port (jsOr env.SERVER_PORT "25565")
    username := r.username
    password := jsOr r.password ""
    type := jsOr r.type "offline" }

/-- The synchronous first half of the `/add-bot` handler
(src/index.js lines 160-167): build the config, push a fresh record
(`instance: null`, `manuallyStopped: false`) with the externally generated
id `newId` (`Date.now() + Math.random()`), then `saveAllBots()`. -/
def addPersist (env : Env) (r : AddReq) (newId : Nat) (s : St) : St :=
  let newRec : BotRecord :=
    { config := mkConfig env r, inst := none, index := newId,
      manuallyStopped := false }
  saveAllBots { s with activeBots := s.activeBots ++ [newRec] }

/-- The `/add-bot` handler (src/index.js lines 158-170): push the new record
and persist (`addPersist`), then `await startBot(index)`, then answer
`{ success: true }`. -/
def addBotHandler (env : Env) (now : String) (r : AddReq) (newId : Nat)
    (alive : Bool) (s : St) : St × List Action × Response :=
  let s2 := addPersist env r newId s
  let started := startBot alive now s2 newId
  (started.1, started.2, { success := true })

/-- The `/control` handler (src/index.js lines 172-176):
`command === 'start' ? await startBot(index) : stopBot(index)`, then answer
`{ success: true }`.  `cmd` is the request's `command` field, `none` when
missing. -/
def controlHandler (now : String) (cmd : Option String) (index : Nat)
    (alive : Bool) (s : St) : St × List Action × Response :=
  if cmd = some "start" then
    let started := startBot alive now s index
    (started.1, started.2, { success := true })
  else
    let stopped := stopBot s index
    (stopped.1, stopped.2, { success := true })

/-- The `/delete-bot` handler (src/index.js lines 178-184): `stopBot`, then
filter the record out, then persist, then answer `{ success: true }`. -/
def deleteBotHandler (s : St) (index : Nat) : St × List Action × Response :=
  let stopped := stopBot s index
  let kept := stopped.1.activeBots.filter (fun b => !(b.index == index))
  let s2 := { stopped.1 with activeBots := kept }
  (saveAllBots s2, stopped.2, { success := true })

/-- One mutation of the persisted set: an `/add-bot` request (with the
externally generated id and the probe outcome of the inner `startBot`) or a
`/delete-bot` request. -/
inductive MutOp where
  | add (r : AddReq) (newId : Nat) (alive : Bool)
  | del (index : Nat)

/-- State transition of one mutation operation. -/
def applyMutOp (env : Env) (now : String) (s : St) : MutOp → St
  | .add r newId alive => (addBotHandler env now r newId alive s).1
  | .del index => (deleteBotHandler s index).1

/-- The records built by `init` from the loaded configurations
(src/index.js lines 339-345): each gets `instance: null`,
`manuallyStopped: true` and a fresh externally generated id, modelled by
`idGen` applied to the position. -/
def initRecords (idGen : Nat → Nat) (saved : List BotConfig) :
    List BotRecord :=
  saved.enum.map (fun p =>
    { config := p.2, inst := none, index := idGen p.1,
      manuallyStopped := true })

/-- The `startBot` calls issued by `init` (src/index.js lines 348-350):
one per loaded record when `AUTO_JOIN_ENABLED === 'true'`, none
otherwise. -/
def initStartCalls (autoJoin : Bool) (records : List BotRecord) : List Nat :=
  if autoJoin then records.map (fun b => b.index) else []

/-- Record-id-relevant operations: an add, a delete, or a startup load
(which replaces `activeBots` with freshly built records). -/
inductive IdOp where
  | add (r : AddReq) (newId : Nat) (alive : Bool)
  | del (index : Nat)
  | load (idGen : Nat → Nat) (saved : List BotConfig)

/-- The ids the external generator supplies during one operation. -/
def suppliedIds : IdOp → List Nat
  | .add _ newId _ => [newId]
  | .del _ => []
  | .load idGen saved => (List.range saved.length).map idGen

/-- State transition of one id-relevant operation. -/
def applyIdOp (env : Env) (now : String) (s : St) : IdOp → St
  | .add r newId alive => (addBotHandler env now r newId alive s).1
  | .del index => (deleteBotHandler s index).1
  | .load idGen saved => { s with activeBots := initRecords idGen saved }

/-- The ids of the currently-held records. -/
def heldIds (s : St) : List Nat := s.activeBots.map (fun b => b.index)

/-- Outcome of the browser-side `addBot()` helper: either a client-side
alert or an HTTP request with the given body. -/
inductive UiOutcome where
  | alert (msg : String)
  | request (body : AddReq)
  deriving DecidableEq

/-- The browser-side `addBot()` helper embedded in the dashboard page
(src/index.js lines 306-316): reads the form fields, defaults the port,
and aborts with `alert("Missing Parameters")` when the username or host
field is empty, sending no request in that case. -/
def uiAddBot (host port username ty : String) : UiOutcome :=
  let body : AddReq :=
    { host := some host
      port := some (if port = "" then "25565" else port)
      username := some username
      password := none
      type := some ty }
  if username = "" ∨ host = "" then UiOutcome.alert "Missing Parameters"
  else UiOutcome.request body

/-- Sample configuration used by concrete instantiations. -/
def cfgA : BotConfig :=
  { host := some "play.example.com", port := "25565",
    username := some "Scout1", password := "", type := "offline" }

/-- A record that is online (session handle present). -/
def recOnline : BotRecord :=
  { config := cfgA, inst := some (), index := 1, manuallyStopped := false }

/-- A record that is offline (no session handle). -/
def recOffline : BotRecord :=
  { config := cfgA, inst := none, index := 2, manuallyStopped := false }

/-- A state holding one online record, persisted consistently. -/
def stOnline : St := { activeBots := [recOnline], botsFile := [cfgA], logs := [] }

/-- A state holding one offline record, persisted consistently. -/
def stOffline : St := { activeBots := [recOffline], botsFile := [cfgA], logs := [] }

/-- The state right after process start with no stored configurations. -/
def emptySt : St := { activeBots := [], botsFile := [], logs := [] }

/-- An environment providing no default server host or port. -/
def envNone : Env := { SERVER_IP := none, SERVER_PORT := none }

/-- A well-formed add request. -/
def reqA : AddReq :=
  { host := some "play.example.com", port := some "25565",
    username := some "Scout1", password := none, type := some "offline" }

/-- An add request whose username field is missing. -/
def reqNoUser : AddReq :=
  { host := some "play.example.com", port := some "25565",
    username := none, password := none, type := some "offline" }

/-! ## Helper lemmas -/

theorem updateFirst_map {α : Type} (g : BotRecord → α) (p : BotRecord → Bool)
    (f : BotRecord → BotRecord) (hf : ∀ b, g (f b) = g b) :
    ∀ l : List BotRecord, (updateFirst p f l).map g = l.map g := by
  intro l
  induction l with
  | nil => rfl
  | cons b bs ih =>
    unfold updateFirst
    by_cases hp : p b
    · simp [hp, hf]
    · simp [hp, ih]

theorem find?_updateFirst (p : BotRecord → Bool) (f : BotRecord → BotRecord)
    (hf : ∀ b, p (f b) = p b) :
    ∀ l : List BotRecord, (updateFirst p f l).find? p = (l.find? p).map f := by
  intro l
  induction l with
  | nil => rfl
  | cons b bs ih =>
    unfold updateFirst
    by_cases hp : p b
    · simp [List.find?_cons, hp, hf]
    · simp [List.find?_cons, hp, hf, ih]

theorem startBot_preserves (alive : Bool) (now : String) (s : St) (i : Nat) :
    (startBot alive now s i).1.botsFile = s.botsFile
    ∧ (startBot alive now s i).1.activeBots.map (fun b => b.config)
        = s.activeBots.map (fun b => b.config)
    ∧ heldIds (startBot alive now s i).1 = heldIds s := by
  unfold startBot
  cases hf : s.activeBots.find? (fun b => b.index == i) with
  | none => exact ⟨rfl, rfl, rfl⟩
  | some state =>
    by_cases hi : state.inst.isSome
    · simp [hi]
    · by_cases ha : alive = false
      · simp [hi, ha, heldIds]
      · simp [hi, ha, heldIds]
        constructor
        · exact updateFirst_map (fun b => b.config) (fun b => b.index == i)
            (fun b => { b with inst := some (), manuallyStopped := false })
            (fun b => rfl) s.activeBots
        · exact updateFirst_map (fun b => b.index) (fun b => b.index == i)
            (fun b => { b with inst := some (), manuallyStopped := false })
            (fun b => rfl) s.activeBots

theorem stopBot_preserves (s : St) (i : Nat) :
    (stopBot s i).1.botsFile = s.botsFile
    ∧ heldIds (stopBot s i).1 = heldIds s := by
  unfold stopBot
  cases hf : s.activeBots.find? (fun b => b.index == i) with
  | none => exact ⟨rfl, rfl⟩
  | some state =>
    by_cases hi : state.inst.isSome
    · simp [hi, heldIds]
      exact updateFirst_map (fun b => b.index) (fun b => b.index == i)
        (fun b => { b with manuallyStopped := true, inst := none })
        (fun b => rfl) s.activeBots
    · simp [hi]

theorem startBot_sync (alive : Bool) (now : String) (s : St) (i : Nat)
    (h : s.botsFile = s.activeBots.map (fun b => b.config)) :
    (startBot alive now s i).1.botsFile
      = (startBot alive now s i).1.activeBots.map (fun b => b.config) := by
  have hp := startBot_preserves alive now s i
  rw [hp.1, hp.2.1, h]

/-- Both mutation endpoints persist before returning, so a single mutation
re-establishes the persistence invariant from any state. -/
theorem applyMutOp_sync (env : Env) (now : String) (s : St) (op : MutOp) :
    (applyMutOp env now s op).botsFile
      = (applyMutOp env now s op).activeBots.map (fun b => b.config) := by
  cases op with
  | add r newId alive => exact startBot_sync alive now _ newId rfl
  | del i => rfl

theorem foldl_mutOps_sync (env : Env) (now : String) :
    ∀ (ops : List MutOp) (s : St), ops ≠ [] →
      (ops.foldl (applyMutOp env now) s).botsFile
        = (ops.foldl (applyMutOp env now) s).activeBots.map (fun b => b.config) := by
  intro ops
  induction ops with
  | nil => intro s h; exact absurd rfl h
  | cons op rest ih =>
    intro s _
    rw [List.foldl_cons]
    rcases rest with _ | ⟨o2, r2⟩
    · simpa using applyMutOp_sync env now s op
    · exact ih (applyMutOp env now s op) (by simp)

/-- The ring-buffer append, folded from a buffer of at most 50 entries,
keeps exactly the most recent 50 entries. -/
theorem addLog_foldl (now : String) :
    ∀ (msgs : List String) (l : List String), l.length ≤ 50 →
      msgs.foldl (fun acc m => addLog now m acc) l
        = (l ++ msgs.map (logEntry now)).drop (l.length + msgs.length - 50) := by
  intro msgs
  induction msgs with
  | nil =>
    intro l hl
    have h0 : l.length - 50 = 0 := by omega
    simp [h0]
  | cons m ms ih =>
    intro l hl
    have hstep : addLog now m l =
        if (l ++ [logEntry now m]).length > 50 then (l ++ [logEntry now m]).drop 1
        else l ++ [logEntry now m] := rfl
    by_cases hlen : l.length + 1 > 50
    · have h50 : l.length = 50 := by omega
      have hstep' : addLog now m l = (l ++ [logEntry now m]).drop 1 := by
        rw [hstep]; simp [h50]
      have hlen' : (addLog now m l).length = 50 := by
        rw [hstep']; simp [h50]
      have hrec := ih (addLog now m l) (by omega)
      rw [List.foldl_cons, hrec, hlen', hstep']
      have e1 : 50 + ms.length - 50 = ms.length := by omega
      have e2 : ((l ++ [logEntry now m]) ++ List.map (logEntry now) ms).drop 1
          = (l ++ [logEntry now m]).drop 1 ++ List.map (logEntry now) ms :=
        List.drop_append_of_le_length (by simp)
      rw [e1, ← e2, List.drop_drop]
      have e3 : l ++ List.map (logEntry now) (m :: ms)
          = (l ++ [logEntry now m]) ++ List.map (logEntry now) ms := by simp
      have e4 : l.length + (m :: ms).length - 50 = ms.length + 1 := by
        simp [h50]
      rw [e3, e4, Nat.add_comm 1 ms.length]
    · have hstep' : addLog now m l = l ++ [logEntry now m] := by
        rw [hstep]; simp; omega
      have hrec := ih (addLog now m l) (by rw [hstep']; simp; omega)
      rw [List.foldl_cons, hrec, hstep']
      simp [List.append_assoc]
      congr 1
      omega

/-! ## Claim theorems -/

/-- C1: for every sequence of add-bot and delete-bot operations, after each
operation the configuration list persisted in `bots.json` equals the
in-memory store's configurations (the `config` field of every record in
`activeBots`), in the same order. -/
theorem c1_persistence_matches_store (env : Env) (now : String) (s : St)
    (ops : List MutOp) (i : Nat) (h : i < ops.length) :
    ((ops.take (i + 1)).foldl (applyMutOp env now) s).botsFile
      = ((ops.take (i + 1)).foldl (applyMutOp env now) s).activeBots.map
          (fun b => b.config) := by
  apply foldl_mutOps_sync
  intro hemp
  have hlen : (ops.take (i + 1)).length = 0 := by rw [hemp]; rfl
  rw [List.length_take] at hlen
  omega

/-- Witness for C1 at a concrete two-operation sequence. -/
theorem c1_persistence_matches_store_witness :
    (([MutOp.add reqA 5 false, MutOp.del 5].take (1 + 1)).foldl
        (applyMutOp envNone "t") emptySt).botsFile
      = (([MutOp.add reqA 5 false, MutOp.del 5].take (1 + 1)).foldl
          (applyMutOp envNone "t") emptySt).activeBots.map (fun b => b.config) :=
  c1_persistence_matches_store envNone "t" emptySt
    [MutOp.add reqA 5 false, MutOp.del 5] 1 (by decide)

/-- C2: the log buffer never exceeds its capacity of 50 entries, and after
`50 + k` appends it holds exactly the most recent 50 entries, oldest to
newest (the oldest entries are evicted first). -/
theorem c2_log_buffer_capacity (now : String) (msgs : List String) :
    (logsAfter now msgs).length ≤ 50
    ∧ (∀ k, msgs.length = 50 + k →
        logsAfter now msgs = (msgs.drop k).map (logEntry now)) := by
  have h := addLog_foldl now msgs [] (by simp)
  constructor
  · rw [logsAfter, h]
    simp
    omega
  · intro k hk
    have hidx : ([] : List String).length + msgs.length - 50 = k := by
      simp [hk]
    rw [logsAfter, h, hidx]
    rw [List.nil_append, ← List.map_drop]

/-- Witness for C2: 51 appends leave exactly the last 50 entries. -/
theorem c2_log_buffer_capacity_witness :
    logsAfter "t" ((List.range 51).map toString)
      = (((List.range 51).map toString).drop 1).map (logEntry "t") :=
  (c2_log_buffer_capacity "t" ((List.range 51).map toString)).2 1 (by simp)

theorem isAbortStr_pingMsg (c : BotConfig) : isAbortStr (pingMsg c) = false := by
  unfold isAbortStr pingMsg
  rw [String.data_append]
  rfl

theorem isAbortStr_abortMsg (c : BotConfig) : isAbortStr (abortMsg c) = true := by
  unfold isAbortStr abortMsg
  rw [String.data_append]
  rfl

/-- C3: stopping an online record emits, in order, the `manuallyStopped`
write, then the disconnect command, then the handle clear; the write comes
strictly before the disconnect command; the record is offline (handle
cleared) synchronously; and the `end` event subsequently delivered for the
session only logs the offline line — it schedules no auto-reconnect, for
any auto-reconnect policy, reason and captured configuration. -/
theorem c3_stop_before_disconnect (now2 reason : String) (cfg : BotConfig)
    (autoReconnect : Bool) (s : St) (i : Nat) (r : BotRecord)
    (hfind : s.activeBots.find? (fun b => b.index == i) = some r)
    (honline : r.inst.isSome = true) :
    (stopBot s i).2
        = [Action.setManuallyStopped i true, Action.quitSession i,
           Action.clearHandle i]
    ∧ (stopBot s i).2.findIdx Action.isSetMS
        < (stopBot s i).2.findIdx Action.isQuit
    ∧ (stopBot s i).1.activeBots.find? (fun b => b.index == i)
        = some { r with inst := none, manuallyStopped := true }
    ∧ (onEnd autoReconnect now2 reason cfg (stopBot s i).1 i).2
        = [Action.log (offlineMsg cfg reason)]
    ∧ ((onEnd autoReconnect now2 reason cfg (stopBot s i).1 i).2.filter
        Action.isScheduleStart) = [] := by
  have htr : (stopBot s i).2
      = [Action.setManuallyStopped i true, Action.quitSession i,
         Action.clearHandle i] := by
    simp [stopBot, hfind, honline]
  have hbots : (stopBot s i).1.activeBots
      = updateFirst (fun b => b.index == i)
          (fun b => { b with manuallyStopped := true, inst := none })
          s.activeBots := by
    simp [stopBot, hfind, honline]
  have hfind' : (stopBot s i).1.activeBots.find? (fun b => b.index == i)
      = some { r with inst := none, manuallyStopped := true } := by
    rw [hbots, find?_updateFirst (fun b => b.index == i)
      (fun b => { b with manuallyStopped := true, inst := none })
      (fun b => rfl), hfind]
    rfl
  have hend : (onEnd autoReconnect now2 reason cfg (stopBot s i).1 i).2
      = [Action.log (offlineMsg cfg reason)] := by
    simp [onEnd, hfind']
  refine ⟨htr, ?_, hfind', hend, ?_⟩
  · rw [htr]
    simp [List.findIdx_cons, Action.isSetMS, Action.isQuit]
  · rw [hend]
    simp [Action.isScheduleStart, List.filter_cons]

/-- Witness for C3 on the concrete one-online-bot state. -/
theorem c3_stop_before_disconnect_witness :
    (stopBot stOnline 1).2
        = [Action.setManuallyStopped 1 true, Action.quitSession 1,
           Action.clearHandle 1]
    ∧ (stopBot stOnline 1).2.findIdx Action.isSetMS
        < (stopBot stOnline 1).2.findIdx Action.isQuit
    ∧ (stopBot stOnline 1).1.activeBots.find? (fun b => b.index == 1)
        = some { recOnline with inst := none, manuallyStopped := true }
    ∧ (onEnd true "t" "socketClosed" cfgA (stopBot stOnline 1).1 1).2
        = [Action.log (offlineMsg cfgA "socketClosed")]
    ∧ ((onEnd true "t" "socketClosed" cfgA (stopBot stOnline 1).1 1).2.filter
        Action.isScheduleStart) = [] :=
  c3_stop_before_disconnect "t" "socketClosed" cfgA true stOnline 1 recOnline
    rfl rfl

/-- C4 counterexample: starting an offline record against an unreachable
server changes the log by more than the abort entry — the probe
announcement is logged as well, so the operation is not free of side
effects on the log beyond the single abort entry. -/
theorem c4_extra_probe_log_counterexample :
    (startBot false "t" stOffline 2).1.logs
      ≠ addLog "t" (abortMsg cfgA) stOffline.logs := by
  decide

/-- C4 (amended): starting a record whose server is unreachable creates no
session handle, leaves every record and the persisted file unchanged,
schedules no reconnect, and appends exactly two log entries — the probe
announcement and exactly one abort entry. -/
theorem c4_start_unreachable (now : String) (s : St) (i : Nat) (r : BotRecord)
    (hfind : s.activeBots.find? (fun b => b.index == i) = some r)
    (hoff : r.inst = none) :
    (startBot false now s i).1.activeBots = s.activeBots
    ∧ (startBot false now s i).1.botsFile = s.botsFile
    ∧ (startBot false now s i).2
        = [Action.log (pingMsg r.config), Action.log (abortMsg r.config)]
    ∧ ((startBot false now s i).2.filter Action.isAbortLog)
        = [Action.log (abortMsg r.config)]
    ∧ ((startBot false now s i).2.filter Action.isCreateSession) = []
    ∧ ((startBot false now s i).2.filter Action.isScheduleStart) = []
    ∧ (startBot false now s i).1.logs
        = addLog now (abortMsg r.config) (addLog now (pingMsg r.config) s.logs) := by
  have hrun : startBot false now s i = ({ s with logs := addLog now (abortMsg r.config) (addLog now (pingMsg r.config) s.logs) }, [Action.log (pingMsg r.config), Action.log (abortMsg r.config)]) := by
    simp [startBot, hfind, hoff]
  rw [hrun]
  refine ⟨rfl, rfl, rfl, ?_, ?_, ?_, rfl⟩
  · simp [List.filter_cons, Action.isAbortLog, isAbortStr_pingMsg,
      isAbortStr_abortMsg]
  · simp [List.filter_cons, Action.isCreateSession]
  · simp [List.filter_cons, Action.isScheduleStart]

/-- Witness for C4 on the concrete one-offline-bot state. -/
theorem c4_start_unreachable_witness :
    (startBot false "t" stOffline 2).1.activeBots = stOffline.activeBots
    ∧ (startBot false "t" stOffline 2).1.botsFile = stOffline.botsFile
    ∧ (startBot false "t" stOffline 2).2
        = [Action.log (pingMsg recOffline.config),
           Action.log (abortMsg recOffline.config)]
    ∧ ((startBot false "t" stOffline 2).2.filter Action.isAbortLog)
        = [Action.log (abortMsg recOffline.config)]
    ∧ ((startBot false "t" stOffline 2).2.filter Action.isCreateSession) = []
    ∧ ((startBot false "t" stOffline 2).2.filter Action.isScheduleStart) = []
    ∧ (startBot false "t" stOffline 2).1.logs
        = addLog "t" (abortMsg recOffline.config)
            (addLog "t" (pingMsg recOffline.config) stOffline.logs) :=
  c4_start_unreachable "t" stOffline 2 recOffline rfl rfl

/-- C5: reloading persisted configurations builds one record per stored
configuration, each with `manuallyStopped = true` and no session handle;
with auto-join disabled no start call is issued, and with auto-join enabled
a start call is issued for every loaded record. -/
theorem c5_startup_load (idGen : Nat → Nat) (saved : List BotConfig) :
    (∀ r ∈ initRecords idGen saved, r.manuallyStopped = true ∧ r.inst = none)
    ∧ (initRecords idGen saved).map (fun b => b.config) = saved
    ∧ initStartCalls false (initRecords idGen saved) = []
    ∧ (∀ r ∈ initRecords idGen saved,
        r.index ∈ initStartCalls true (initRecords idGen saved)) := by
  refine ⟨?_, ?_, rfl, ?_⟩
  · intro r hr
    simp [initRecords] at hr
    obtain ⟨a, b, hab, rfl⟩ := hr
    exact ⟨rfl, rfl⟩
  · unfold initRecords
    rw [List.map_map]
    exact List.enum_map_snd saved
  · intro r hr
    simp [initStartCalls]
    exact ⟨r, hr, rfl⟩

/-- Witness for C5: the record loaded from a one-element store is created
stopped and offline. -/
theorem c5_startup_load_witness :
    BotRecord.manuallyStopped
        { config := cfgA, inst := none, index := 0, manuallyStopped := true }
      = true
    ∧ BotRecord.inst
        { config := cfgA, inst := none, index := 0, manuallyStopped := true }
      = none :=
  (c5_startup_load (fun n => n) [cfgA]).1
    { config := cfgA, inst := none, index := 0, manuallyStopped := true }
    (by decide)

theorem addBot_heldIds (env : Env) (now : String) (r : AddReq) (newId : Nat)
    (alive : Bool) (s : St) :
    heldIds (addBotHandler env now r newId alive s).1 = heldIds s ++ [newId] := by
  have h := (startBot_preserves alive now (addPersist env r newId s) newId).2.2
  calc heldIds (addBotHandler env now r newId alive s).1
      = heldIds (startBot alive now (addPersist env r newId s) newId).1 := rfl
    _ = heldIds (addPersist env r newId s) := h
    _ = heldIds s ++ [newId] := by simp [addPersist, saveAllBots, heldIds]

theorem delete_heldIds_sublist (s : St) (i : Nat) :
    List.Sublist (heldIds (deleteBotHandler s i).1) (heldIds s) := by
  have hstop := (stopBot_preserves s i).2
  have hsub : List.Sublist
      (((stopBot s i).1.activeBots.filter
        (fun b => !(b.index == i))).map (fun b => b.index))
      ((stopBot s i).1.activeBots.map (fun b => b.index)) :=
    List.Sublist.map (fun b => b.index)
      (List.filter_sublist ((stopBot s i).1.activeBots))
  have hsub' : List.Sublist (heldIds (deleteBotHandler s i).1)
      (heldIds (stopBot s i).1) := hsub
  rw [hstop] at hsub'
  exact hsub'

theorem initRecords_heldIds (idGen : Nat → Nat) (saved : List BotConfig) :
    (initRecords idGen saved).map (fun b => b.index)
      = (List.range saved.length).map idGen := by
  simp [initRecords, List.map_map, Function.comp]
  rw [← List.enum_map_fst saved, List.map_map]
  rfl

/-- C6 counterexample: nothing in the code enforces id uniqueness — when the
external generator (`Date.now() + Math.random()`) supplies the same value
for two add operations, two currently-held records share a `recordId`. -/
theorem c6_duplicate_id_counterexample :
    heldIds ([IdOp.add reqA 5 false, IdOp.add reqA 5 false].foldl
        (applyIdOp envNone "t") emptySt) = [5, 5]
    ∧ ¬ (heldIds ([IdOp.add reqA 5 false, IdOp.add reqA 5 false].foldl
        (applyIdOp envNone "t") emptySt)).Pairwise (fun a b => a ≠ b) := by
  have h : heldIds ([IdOp.add reqA 5 false, IdOp.add reqA 5 false].foldl
      (applyIdOp envNone "t") emptySt) = [5, 5] := by decide
  refine ⟨h, ?_⟩
  rw [h]
  intro hp
  exact (List.pairwise_cons.mp hp).1 5 (by simp) rfl

/-- C6 (amended): `recordId` uniqueness among currently-held records holds
for every sequence of add, startup-load and delete operations provided the
externally generated ids are fresh — pairwise distinct and distinct from
every id already held.  The code itself performs no uniqueness check, so
the invariant is conditional on the generator never repeating a value. -/
theorem c6_unique_ids_of_fresh (env : Env) (now : String) :
    ∀ (ops : List IdOp) (s : St),
      (heldIds s ++ (ops.map suppliedIds).flatten).Pairwise (fun a b => a ≠ b) →
      (heldIds (ops.foldl (applyIdOp env now) s)).Pairwise
        (fun a b => a ≠ b) := by
  intro ops
  induction ops with
  | nil =>
    intro s h
    simpa using h
  | cons op rest ih =>
    intro s h
    rw [List.foldl_cons]
    apply ih
    cases op with
    | add r newId alive =>
      have hid : heldIds (applyIdOp env now s (IdOp.add r newId alive))
          = heldIds s ++ [newId] := addBot_heldIds env now r newId alive s
      rw [hid, List.append_assoc]
      simpa [List.flatten] using h
    | del i =>
      have hsub : List.Sublist
          (heldIds (applyIdOp env now s (IdOp.del i)) ++ (rest.map suppliedIds).flatten)
          (heldIds s ++ (rest.map suppliedIds).flatten) :=
        (delete_heldIds_sublist s i).append (List.Sublist.refl _)
      have h' : (heldIds s ++ (rest.map suppliedIds).flatten).Pairwise
          (fun a b => a ≠ b) := by
        simpa [List.flatten, suppliedIds] using h
      exact h'.sublist hsub
    | load idGen saved =>
      have hid : heldIds (applyIdOp env now s (IdOp.load idGen saved))
          = suppliedIds (IdOp.load idGen saved) := by
        simpa [applyIdOp, heldIds, suppliedIds] using initRecords_heldIds idGen saved
      rw [hid]
      have h' : (heldIds s ++ (suppliedIds (IdOp.load idGen saved)
          ++ (rest.map suppliedIds).flatten)).Pairwise (fun a b => a ≠ b) := by
        simpa [List.flatten] using h
      exact h'.sublist (List.sublist_append_right _ _)

/-- Witness for C6 at a fresh three-operation sequence. -/
theorem c6_unique_ids_of_fresh_witness :
    (heldIds ([IdOp.add reqA 5 false, IdOp.del 5, IdOp.add reqA 6 false].foldl
        (applyIdOp envNone "t") emptySt)).Pairwise (fun a b => a ≠ b) :=
  c6_unique_ids_of_fresh envNone "t"
    [IdOp.add reqA 5 false, IdOp.del 5, IdOp.add reqA 6 false] emptySt
    (by simp [heldIds, emptySt, suppliedIds, List.flatten])

/-- C7 counterexample: a direct add-bot request with no username is not
rejected — the endpoint creates a record whose configuration has no
username, attempts the start, and answers success. -/
theorem c7_no_endpoint_validation_counterexample :
    (addBotHandler envNone "t" reqNoUser 5 false emptySt).1.activeBots.length = 1
    ∧ ((addBotHandler envNone "t" reqNoUser 5 false emptySt).1.activeBots.map
        (fun b => b.config.username)) = [none]
    ∧ (addBotHandler envNone "t" reqNoUser 5 false emptySt).2.2
        = { success := true } := by
  refine ⟨?_, ?_, rfl⟩ <;> decide

/-- C7 (amended): the missing-username check lives only in the browser-side
`addBot()` helper, which alerts "Missing Parameters" and sends no request;
the server endpoint performs no validation — a request without a username
still appends a record (whose configuration keeps the username absent),
hands it to the start operation, and answers success. -/
theorem c7_validation_only_in_ui (host port ty now : String) (env : Env)
    (r : AddReq) (newId : Nat) (alive : Bool) (s : St)
    (hnouser : r.username = none) :
    uiAddBot host port "" ty = UiOutcome.alert "Missing Parameters"
    ∧ (mkConfig env r).username = none
    ∧ heldIds (addBotHandler env now r newId alive s).1 = heldIds s ++ [newId]
    ∧ (addBotHandler env now r newId alive s).2.1
        = (startBot alive now (addPersist env r newId s) newId).2
    ∧ (addBotHandler env now r newId alive s).2.2 = { success := true } := by
  refine ⟨?_, ?_, addBot_heldIds env now r newId alive s, rfl, rfl⟩
  · simp [uiAddBot]
  · simp [mkConfig, hnouser]

/-- Witness for C7 on the concrete empty state. -/
theorem c7_validation_only_in_ui_witness :
    uiAddBot "play.example.com" "25565" "" "offline"
        = UiOutcome.alert "Missing Parameters"
    ∧ (mkConfig envNone reqNoUser).username = none
    ∧ heldIds (addBotHandler envNone "t" reqNoUser 5 false emptySt).1
        = heldIds emptySt ++ [5]
    ∧ (addBotHandler envNone "t" reqNoUser 5 false emptySt).2.1
        = (startBot false "t" (addPersist envNone reqNoUser 5 emptySt) 5).2
    ∧ (addBotHandler envNone "t" reqNoUser 5 false emptySt).2.2
        = { success := true } :=
  c7_validation_only_in_ui "play.example.com" "25565" "offline" "t" envNone
    reqNoUser 5 false emptySt rfl

/-- C8 counterexample: store content that parses to a JSON value other than
an array is returned as-is by `loadBots` — the result is not a
configuration list. -/
theorem c8_nonarray_counterexample :
    (loadBots "t" (BotsFile.parsed (Json.num 42)) []).1 = Json.num 42
    ∧ Json.isArr (loadBots "t" (BotsFile.parsed (Json.num 42)) []).1 = false :=
  ⟨rfl, rfl⟩

/-- C8 (amended): `loadBots` never propagates an error: an absent or empty
file yields the empty list; a read or parse failure logs exactly one error
entry and yields the empty list; successfully parsed content is returned
as-is, so the result is a list whenever the store holds a JSON array (as
every store written by `saveAllBots` is), but a non-array document is
passed through unchanged. -/
theorem c8_load_degrades_to_empty (now : String) (logs : List String) :
    loadBots now BotsFile.absent logs = (Json.arr [], logs)
    ∧ loadBots now BotsFile.emptyContent logs = (Json.arr [], logs)
    ∧ loadBots now BotsFile.readError logs
        = (Json.arr [], addLog now "Error reading bots.json" logs)
    ∧ loadBots now BotsFile.parseError logs
        = (Json.arr [], addLog now "Error reading bots.json" logs)
    ∧ (∀ j : Json, loadBots now (BotsFile.parsed j) logs = (j, logs))
    ∧ (∀ l : List Json,
        (loadBots now (BotsFile.parsed (Json.arr l)) logs).1 = Json.arr l) :=
  ⟨rfl, rfl, rfl, rfl, fun _ => rfl, fun _ => rfl⟩

/-- C9: the control endpoint dispatches on strict equality with the string
`'start'`: any other command value — `'stop'`, a misspelled command, or a
missing command field — invokes the stop operation, and exactly the string
`'start'` invokes the start operation. -/
theorem c9_control_dispatch (now : String) (index : Nat) (alive : Bool)
    (s : St) :
    (∀ cmd : Option String, cmd ≠ some "start" →
      controlHandler now cmd index alive s
        = ((stopBot s index).1, (stopBot s index).2, { success := true }))
    ∧ controlHandler now (some "start") index alive s
        = ((startBot alive now s index).1, (startBot alive now s index).2,
           { success := true }) := by
  constructor
  · intro cmd hc
    simp [controlHandler, hc]
  · simp [controlHandler]

/-- Witness for C9: the command `'stop'` and a missing command both reach
the stop operation. -/
theorem c9_control_dispatch_witness :
    controlHandler "t" (some "stop") 1 false stOnline
      = ((stopBot stOnline 1).1, (stopBot stOnline 1).2, { success := true }) :=
  (c9_control_dispatch "t" 1 false stOnline).1 (some "stop") (by decide)

/-- C10: every mutation endpoint answers `success = true` for every input;
a start, stop or delete addressed to an id no current record bears is a
silent no-op — start and stop leave the state untouched and emit nothing,
and delete leaves a consistently-persisted state untouched, emitting
nothing. -/
theorem c10_endpoints_always_succeed (env : Env) (now : String) (r : AddReq)
    (newId : Nat) (alive : Bool) (cmd : Option String) (i : Nat)
    (sAny s : St)
    (hmiss : s.activeBots.find? (fun b => b.index == i) = none)
    (hsync : s.botsFile = s.activeBots.map (fun b => b.config)) :
    (addBotHandler env now r newId alive sAny).2.2.success = true
    ∧ (controlHandler now cmd i alive sAny).2.2.success = true
    ∧ (deleteBotHandler sAny i).2.2.success = true
    ∧ startBot alive now s i = (s, [])
    ∧ stopBot s i = (s, [])
    ∧ deleteBotHandler s i = (s, [], { success := true }) := by
  have hctl : (controlHandler now cmd i alive sAny).2.2.success = true := by
    by_cases hc : cmd = some "start" <;> simp [controlHandler, hc]
  have hstart : startBot alive now s i = (s, []) := by
    simp [startBot, hmiss]
  have hstop : stopBot s i = (s, []) := by
    simp [stopBot, hmiss]
  have hall : ∀ b ∈ s.activeBots, (!(b.index == i)) = true := by
    intro b hb
    have hnb := List.find?_eq_none.mp hmiss b hb
    simpa using hnb
  have hkeep : s.activeBots.filter (fun b => !(b.index == i)) = s.activeBots :=
    List.filter_eq_self.mpr hall
  have hsave : saveAllBots s = s := by
    unfold saveAllBots
    rw [← hsync]
  have hdel : deleteBotHandler s i = (s, [], { success := true }) := by
    unfold deleteBotHandler
    rw [hstop]
    simp [hkeep, hsave]
  exact ⟨rfl, hctl, rfl, hstart, hstop, hdel⟩

/-- Witness for C10: endpoints succeed and id 7, held by no record, is a
silent no-op everywhere. -/
theorem c10_endpoints_always_succeed_witness :
    (addBotHandler envNone "t" reqA 5 false stOnline).2.2.success = true
    ∧ (controlHandler "t" (some "boom") 7 false stOnline).2.2.success = true
    ∧ (deleteBotHandler stOnline 7).2.2.success = true
    ∧ startBot false "t" emptySt 7 = (emptySt, [])
    ∧ stopBot emptySt 7 = (emptySt, [])
    ∧ deleteBotHandler emptySt 7 = (emptySt, [], { success := true }) :=
  c10_endpoints_always_succeed envNone "t" reqA 5 false (some "boom") 7
    stOnline emptySt rfl rfl

end MCBot
